import Mathlib

/-!
Verification of the two teaching pipelines in the duspviz-mit
spatial-data-science repository: the OpenRouteService routing/isochrone
notebook and the faculty-page scraping notebook.  Python code is shallowly
embedded: strings are lists of characters, dictionaries are association
lists, the remote service and the downloader are oracle functions, and a
Python statement that raises is a value of `Except`.

Definitions come first (translated from the notebook cells), theorems after.
-/

namespace SpatialDataScience

/-! ## Python string primitives used by the scraper

`str.replace(a, b)` for single-character `a`, `b` is a character map;
`str.replace(a, '')` deletes every occurrence of `a`; `str.lower()` maps
`Char.toLower` over the characters. -/

/-- Python `s.replace(a, b)` where `a` and `b` are single characters. -/
def pyReplaceChar (s : List Char) (a b : Char) : List Char :=
  s.map fun c => if c = a then b else c

/-- Python `s.replace(a, '')`: delete every occurrence of the character. -/
def pyDeleteChar (s : List Char) (a : Char) : List Char :=
  s.filter fun c => c ≠ a

/-- Python `s.lower()`. -/
def pyLower (s : List Char) : List Char :=
  s.map Char.toLower

/-! ## Image filename slug (scraping notebook, photo-download cell)

Source: `image_file = name.replace(' ', '_').lower().replace('.', '') + '.jpg'` -/

/-- The image filename computed by the photo-download cell from a record's
display name. -/
def image_file (name : List Char) : List Char :=
  pyDeleteChar (pyLower (pyReplaceChar name ' ' '_')) '.' ++ ".jpg".toList

/-- Written from the spec's words: the name with spaces replaced by
underscores, lower-cased, with periods stripped, suffixed with `.jpg` —
rendered as a single right fold over the name. -/
def slugOfNameSpec (name : List Char) : List Char :=
  name.foldr
    (fun c acc =>
      let d := Char.toLower (if c = ' ' then '_' else c)
      if d = '.' then acc else d :: acc)
    ".jpg".toList

/-! ## Listing-page record blocks (scraping notebook)

A record block is one `div.row-people` element of the people page; the
scraper reads child divs by CSS class and takes their text. -/

/-- A parsed HTML element: its CSS classes and its text content, the value
`get_text()` returns on it. -/
structure Elem where
  classes : List String
  text : String
deriving DecidableEq

/-- One repeated record block of the listing page: its child elements. -/
structure Block where
  elems : List Elem
deriving DecidableEq

/-- BeautifulSoup `block.find('div', class_=cls)`: the first child element
carrying the class, or `None` when the block has no such element. -/
def findByClass (b : Block) (cls : String) : Option Elem :=
  b.elems.find? fun e => e.classes.contains cls

/-- Python `x.get_text()` where `x` is the result of `find` and may be
`None`: calling a method on `None` raises `AttributeError`. -/
def pyGetText (x : Option Elem) : Except String String :=
  match x with
  | none => Except.error "AttributeError: NoneType object has no attribute get_text"
  | some e => Except.ok e.text

/-- CSS class of the first position/title field. -/
def pos1Class : String := "views-field-field-position-and-title-1"

/-- CSS class of the second position/title field. -/
def pos2Class : String := "views-field-field-position-and-title-2"

/-- CSS class of the other-division field. -/
def otherClass : String := "views-field-field-other-division"

/-- Source: `person.find('div', class_='views-field-field-position-and-title-1').get_text()`. -/
def extractPos1 (b : Block) : Except String String :=
  pyGetText (findByClass b pos1Class)

/-- Source: `person.find('div', class_='views-field-field-position-and-title-2').get_text()`. -/
def extractPos2 (b : Block) : Except String String :=
  pyGetText (findByClass b pos2Class)

/-- Source: `person.find('div', class_='views-field-field-other-division').get_text()`. -/
def extractOther (b : Block) : Except String String :=
  pyGetText (findByClass b otherClass)

/-- A concrete record block that carries only the name link and no
label/value divs at all. -/
def blockWithoutFields : Block :=
  Block.mk [Elem.mk ["username"] "Cherie Abbanat"]

/-- The first record block of the captured listing page: the position-1 div
has text, the position-2 and other-division divs are present but empty. -/
def abbanatBlock : Block :=
  Block.mk
    [Elem.mk ["views-field", "views-field-field-user-picture"] "",
     Elem.mk ["username"] "Cherie Abbanat",
     Elem.mk ["views-field", "views-field-field-position-and-title-1"]
       "Lecturer of International Development and Urban Studies",
     Elem.mk ["views-field", "views-field-field-position-and-title-2"] "",
     Elem.mk ["views-field", "views-field-field-other-division"] ""]

/-! ## API key and environment (routing notebook)

The notebook instructs the reader to put `OSRKEY=yourapikey` into `.env`,
then runs `load_dotenv()` and `osrkey = os.getenv('ORSKEY')`, and finally
`ors = client.Client(key=osrkey)`. -/

/-- The environment produced by `load_dotenv()` from the `.env` file the
notebook instructs the reader to create, holding the stored API key under
the instructed variable name `OSRKEY`. -/
def dotenvFile (key : String) : List (String × String) :=
  [("OSRKEY", key)]

/-- `os.getenv(name)` over an environment given as an association list. -/
def os_getenv (env : List (String × String)) (name : String) : Option String :=
  (env.find? fun p => p.fst == name).map Prod.snd

/-- Source: `osrkey = os.getenv('ORSKEY')`. -/
def osrkey (env : List (String × String)) : Option String :=
  os_getenv env "ORSKEY"

/-- Source: `ors = client.Client(key=osrkey)`: the key value the routing
client is constructed with. -/
def orsClientKey (env : List (String × String)) : Option String :=
  osrkey env

/-! ## Faculty CSV writer (scraping notebook)

`writer.writeheader()` once, then `writer.writerow(row)` for each record. -/

/-- One write against the output CSV: the header line or a data row (a
record dictionary). -/
inductive CsvWrite where
  | header (fields : List String)
  | row (vals : List (String × String))
deriving DecidableEq

/-- Field names of the faculty CSV in the photo-download cell. -/
def facultyFieldNames : List String :=
  ["name", "href", "pos_1", "pos_2", "other_affil", "bio", "office", "email",
   "interests", "image_file"]

/-- The faculty writer loop: write the header, then fold over the records
appending one data row each, in page order. -/
def writeFacultyCsv (rows : List (List (String × String))) : List CsvWrite :=
  rows.foldl (fun acc r => acc ++ [CsvWrite.row r]) [CsvWrite.header facultyFieldNames]

/-- Recognizer for header writes. -/
def isHeaderWrite : CsvWrite → Bool
  | CsvWrite.header _ => true
  | CsvWrite.row _ => false

/-! ## Photo download loop (scraping notebook, photo-download cell)

Per record: `image_url = person.find('img')`; when present, assign
`image_file` to the slug and `wget.download` inside a try; the except
branch runs `print(err + '---Could not download faculty photo.')` and then
`image_file = err`.  The variable `image_file` is never reset between
records. -/

/-- A Python runtime value held by the `image_file` variable: a string or
an exception object. -/
inductive PyVal where
  | str (s : String)
  | exc (msg : String)
deriving DecidableEq

/-- Python `+` on such values: string concatenation on strings; adding an
exception object to a string is unsupported and raises `TypeError`. -/
def pyAdd : PyVal → PyVal → Except String PyVal
  | PyVal.str a, PyVal.str b => Except.ok (PyVal.str (a ++ b))
  | PyVal.exc _, _ =>
      Except.error "TypeError: unsupported operand type(s) for +: Exception and str"
  | _, _ => Except.error "TypeError: unsupported operand type(s) for +"

/-- The photo-download except-branch: evaluate
`print(err + '---Could not download faculty photo.')`, then
`image_file = err`.  The result is the value left in `image_file` when the
branch completes, or the uncaught exception it raises. -/
def photoExceptBranch (err : String) : Except String PyVal :=
  match pyAdd (PyVal.exc err) (PyVal.str "---Could not download faculty photo.") with
  | Except.error t => Except.error t
  | Except.ok _ => Except.ok (PyVal.exc err)

/-- A faculty record block as the photo-download cell consumes it: the
display name and, when the block has an `img` element, its `src`. -/
structure Person where
  name : String
  img : Option String
deriving DecidableEq

/-- The photo-download loop restricted to the data it threads between
records: the `image_file` variable (`none` while still unbound) and the
`(name, image_file)` cell of each written row.  `dl` is the
`wget.download` oracle.  A `none` image leaves `image_file` untouched; an
unbound `image_file` used in the row dictionary raises `NameError`. -/
def facultyImageRows (dl : String → Except String Unit) :
    Option PyVal → List Person → Except String (List (String × PyVal))
  | _, [] => Except.ok []
  | st, p :: ps =>
    match p.img with
    | some url =>
        let f := PyVal.str (String.mk (image_file p.name.toList))
        match dl url with
        | Except.ok _ =>
            (facultyImageRows dl (some f) ps).map (fun rest => (p.name, f) :: rest)
        | Except.error e =>
            match photoExceptBranch e with
            | Except.error t => Except.error t
            | Except.ok v =>
                (facultyImageRows dl (some v) ps).map (fun rest => (p.name, v) :: rest)
    | none =>
        match st with
        | some f => (facultyImageRows dl st ps).map (fun rest => (p.name, f) :: rest)
        | none => Except.error "NameError: name image_file is not defined"

/-- A downloader that always fails, standing for an unreachable image URL. -/
def failingDl : String → Except String Unit :=
  fun _ => Except.error "HTTP Error 404: Not Found"

/-- A downloader that always succeeds. -/
def okDl : String → Except String Unit :=
  fun _ => Except.ok ()

/-! ## Batch isochrone pipeline (routing notebook, camberville_t_iso cell)

Per input row: build params from the row's X/Y, then inside a try block
`request = ors.isochrones(**params)`,
`line['geom'] = shape(request['features'][0]['geometry']).wkt`, `sleep(2)`,
`writer.writerow(line)`; the except branch is `pprint(err)` and the loop
moves to the next row.  The remote service and the shapely conversion are
oracle functions. -/

/-- One input CSV row of `camberville_t.csv` as `csv.DictReader` yields it:
a station name and X/Y coordinate strings. -/
structure StationRow where
  station : String
  x : String
  y : String
deriving DecidableEq

/-- One output CSV row: the input row with the `geom` column filled. -/
structure IsoRow where
  row : StationRow
  geom : String
deriving DecidableEq

/-- The fallible part of the loop body: the remote isochrone request
followed by the geometry-to-WKT conversion, yielding the WKT string or the
first exception raised. -/
def rowGeom {G : Type} (iso : StationRow → Except String G)
    (toWkt : G → Except String String) (r : StationRow) : Except String String :=
  match iso r with
  | Except.error e => Except.error e
  | Except.ok g => toWkt g

/-- Whether the loop body raises for this row. -/
def rowFails {G : Type} (iso : StationRow → Except String G)
    (toWkt : G → Except String String) (r : StationRow) : Bool :=
  match rowGeom iso toWkt r with
  | Except.error _ => true
  | Except.ok _ => false

/-- The output row the loop writes for an input row, when the body
succeeds. -/
def successRow {G : Type} (iso : StationRow → Except String G)
    (toWkt : G → Except String String) (r : StationRow) : Option IsoRow :=
  match rowGeom iso toWkt r with
  | Except.ok w => some (IsoRow.mk r w)
  | Except.error _ => none

/-- One observable event of the batch loop, tagged with the 0-based index
of the input row it belongs to: the remote request being issued, a data row
being written, or the except branch printing the error. -/
inductive IsoEvent where
  | request (i : Nat) (r : StationRow)
  | write (i : Nat) (o : IsoRow)
  | log (i : Nat) (e : String)
deriving DecidableEq

/-- The index an event is tagged with. -/
def evIdx : IsoEvent → Nat
  | IsoEvent.request i _ => i
  | IsoEvent.write i _ => i
  | IsoEvent.log i _ => i

/-- Recognizer for the request event of row `i`. -/
def isRequestIdx (i : Nat) : IsoEvent → Bool
  | IsoEvent.request j _ => j == i
  | _ => false

/-- Recognizer for a write event of row `i`. -/
def isWriteIdx (i : Nat) : IsoEvent → Bool
  | IsoEvent.write j _ => j == i
  | _ => false

/-- Recognizer for a log event of row `i`. -/
def isLogIdx (i : Nat) : IsoEvent → Bool
  | IsoEvent.log j _ => j == i
  | _ => false

/-- The event trace of the batch loop from row index `i` on: one request
per row, then either the write of the completed row or the printed error,
then the rest of the rows. -/
def isoTraceFrom {G : Type} (iso : StationRow → Except String G)
    (toWkt : G → Except String String) : Nat → List StationRow → List IsoEvent
  | _, [] => []
  | i, r :: rs =>
    IsoEvent.request i r ::
      ((match rowGeom iso toWkt r with
        | Except.error e => [IsoEvent.log i e]
        | Except.ok w => [IsoEvent.write i (IsoRow.mk r w)]) ++
       isoTraceFrom iso toWkt (i + 1) rs)

/-- The event trace of the whole batch loop. -/
def isoTrace {G : Type} (iso : StationRow → Except String G)
    (toWkt : G → Except String String) (rows : List StationRow) : List IsoEvent :=
  isoTraceFrom iso toWkt 0 rows

/-- The data rows written to the output CSV, in order. -/
def writtenRows (tr : List IsoEvent) : List IsoRow :=
  tr.filterMap fun ev =>
    match ev with
    | IsoEvent.write _ o => some o
    | _ => none

/-- Concrete two-station input slice of `camberville_t.csv`. -/
def sampleRows : List StationRow :=
  [StationRow.mk "Harvard" "-71.1190" "42.3736",
   StationRow.mk "Kendall/MIT" "-71.0865" "42.3625"]

/-- A service oracle that answers the Harvard request and rate-limits the
second station. -/
def sampleIso : StationRow → Except String String :=
  fun r =>
    if r.station == "Kendall/MIT" then Except.error "ApiError: 429 rate limit exceeded"
    else Except.ok "polygon-geometry-harvard"

/-- A conversion oracle standing for `shape(...).wkt`. -/
def sampleWkt : String → Except String String :=
  fun _ => Except.ok "POLYGON ((0 0, 1 1, 1 0, 0 0))"

/-! ## GeoJSON coordinate round trip (routing notebook)

`json.dump(route, open('single_route.geojson', 'w'))` writes the feature
collection as text and a later `json.load` reads it back.  A coordinate is
a decimal number, modelled by its written decimal form — sign, integer-part
digits, fraction-part digits — and the geometry's coordinate list is a JSON
array of two-element arrays.  Serialization and parsing are embedded
character by character. -/

/-- A decimal coordinate number as written in the GeoJSON text. -/
structure JNum where
  neg : Bool
  ip : List Char
  fp : List Char
deriving DecidableEq

/-- Well-formed number: both digit groups non-empty and made of digits. -/
def wfNum (n : JNum) : Bool :=
  !n.ip.isEmpty && !n.fp.isEmpty && n.ip.all Char.isDigit && n.fp.all Char.isDigit

/-- Serialize a number: optional minus sign, integer digits, decimal
point, fraction digits. -/
def serNum (n : JNum) : List Char :=
  (if n.neg then ['-'] else []) ++ n.ip ++ '.' :: n.fp

/-- Consume an optional leading minus sign. -/
def parseSign : List Char → Bool × List Char
  | '-' :: t => (true, t)
  | s => (false, s)

/-- Parse a decimal number: optional sign, digits, point, digits; yields
the number and the unconsumed input. -/
def parseNum (s : List Char) : Option (JNum × List Char) :=
  let p := parseSign s
  let ip := p.snd.takeWhile Char.isDigit
  let s2 := p.snd.dropWhile Char.isDigit
  if ip.isEmpty then none
  else
    match s2 with
    | '.' :: s3 =>
        let fp := s3.takeWhile Char.isDigit
        let s4 := s3.dropWhile Char.isDigit
        if fp.isEmpty then none else some (JNum.mk p.fst ip fp, s4)
    | _ => none

/-- The text of a coordinate pair after its opening bracket. -/
def serPairTail (c : JNum × JNum) : List Char :=
  serNum c.fst ++ ',' :: serNum c.snd ++ [']']

/-- Serialize a coordinate pair `[x,y]`. -/
def serPair (c : JNum × JNum) : List Char :=
  '[' :: serPairTail c

/-- Parse a coordinate pair `[x,y]`. -/
def parsePair (s : List Char) : Option ((JNum × JNum) × List Char) :=
  match s with
  | '[' :: s1 =>
      match parseNum s1 with
      | some (x, ',' :: s2) =>
          match parseNum s2 with
          | some (y, ']' :: s3) => some ((x, y), s3)
          | _ => none
      | _ => none
  | _ => none

/-- Serialize the tail of a non-empty coordinate array: one `,pair` per
remaining element, then the closing bracket. -/
def serCoordsTail : List (JNum × JNum) → List Char
  | [] => [']']
  | c :: cs => ',' :: (serPair c ++ serCoordsTail cs)

/-- Serialize a coordinate array `[[x,y],...]`. -/
def serCoords : List (JNum × JNum) → List Char
  | [] => ['[', ']']
  | c :: cs => '[' :: (serPair c ++ serCoordsTail cs)

/-- Parse the tail of a coordinate array: either the closing bracket or a
comma followed by a pair and the rest.  `fuel` bounds the recursion. -/
def parseCoordsTail : Nat → List Char → Option (List (JNum × JNum) × List Char)
  | _, ']' :: s => some ([], s)
  | fuel + 1, ',' :: s =>
      match parsePair s with
      | some (c, s2) =>
          match parseCoordsTail fuel s2 with
          | some (cs, r) => some (c :: cs, r)
          | none => none
      | none => none
  | _, _ => none

/-- Parse a coordinate array `[[x,y],...]`. -/
def parseCoords (fuel : Nat) (s : List Char) : Option (List (JNum × JNum) × List Char) :=
  match s with
  | '[' :: ']' :: s2 => some ([], s2)
  | '[' :: s1 =>
      match parsePair s1 with
      | some (c, s2) =>
          match parseCoordsTail fuel s2 with
          | some (cs, r) => some (c :: cs, r)
          | none => none
      | none => none
  | _ => none

/-- `json.dump` restricted to a geometry's coordinate list: the text
written to the GeoJSON file for it. -/
def jsonDumpCoords (l : List (JNum × JNum)) : List Char :=
  serCoords l

/-- `json.load` restricted to a geometry's coordinate list: reparse the
written text. -/
def jsonLoadCoords (s : List Char) : Option (List (JNum × JNum) × List Char) :=
  parseCoords s.length s

/-- The head of the unconsumed input is not a digit (or there is none), so
number parsing stops exactly at the serialized digits. -/
def headIsNotDigit : List Char → Bool
  | [] => true
  | c :: _ => !c.isDigit

/-- The first two coordinates of the route LineString captured in the
notebook output. -/
def routeCoords : List (JNum × JNum) :=
  [(JNum.mk true "71".toList "099533".toList, JNum.mk false "42".toList "379329".toList),
   (JNum.mk true "71".toList "099521".toList, JNum.mk false "42".toList "379329".toList)]

/-! ## Theorems -/

theorem image_file_eq_spec (name : List Char) :
    image_file name = slugOfNameSpec name := by
  induction name with
  | nil => rfl
  | cons c cs ih =>
      simp only [image_file, pyReplaceChar, pyLower, pyDeleteChar, List.map_cons,
        List.filter_cons, List.map_map, ne_eq, decide_not, Function.comp,
        slugOfNameSpec, List.foldr_cons] at ih ⊢
      by_cases h : Char.toLower (if c = ' ' then '_' else c) = '.'
      · simpa [h] using ih
      · simpa [h] using ih

/-- Claim C6: the image filename is a deterministic function of the
record's name, and for every name it equals the name with spaces replaced
by underscores, lower-cased, with periods stripped, suffixed with `.jpg`. -/
theorem claim_C6_slug_deterministic (n₁ n₂ : List Char) (h : n₁ = n₂) :
    image_file n₁ = image_file n₂ ∧ image_file n₁ = slugOfNameSpec n₁ :=
  ⟨by rw [h], image_file_eq_spec n₁⟩

/-- Witness for C6 at the concrete name `Lawrence S. Bacow`. -/
theorem claim_C6_slug_deterministic_witness :
    "Lawrence S. Bacow".toList = "Lawrence S. Bacow".toList ∧
      (image_file "Lawrence S. Bacow".toList = image_file "Lawrence S. Bacow".toList ∧
        image_file "Lawrence S. Bacow".toList = slugOfNameSpec "Lawrence S. Bacow".toList) :=
  ⟨rfl, claim_C6_slug_deterministic "Lawrence S. Bacow".toList "Lawrence S. Bacow".toList rfl⟩

/-- Claim C2 counterexample: on a record block that has no
position-and-title-1 div at all, the extraction raises `AttributeError`
(`find` returns `None` and `.get_text()` is called on it) instead of
yielding an empty value. -/
theorem claim_C2_counterexample :
    extractPos1 blockWithoutFields =
      Except.error "AttributeError: NoneType object has no attribute get_text" := by
  rfl

/-- Claim C2 as amended: a label/value field whose div is present in the
block yields that div's text without error — in particular a present but
empty div yields the empty value — while a field whose div is absent makes
the extraction raise `AttributeError` rather than yield an empty value. -/
theorem claim_C2_field_extraction (b : Block) :
    (∀ e, findByClass b pos1Class = some e → extractPos1 b = Except.ok e.text) ∧
    (findByClass b pos1Class = none →
      extractPos1 b =
        Except.error "AttributeError: NoneType object has no attribute get_text") ∧
    (∀ e, findByClass b pos2Class = some e → extractPos2 b = Except.ok e.text) ∧
    (findByClass b pos2Class = none →
      extractPos2 b =
        Except.error "AttributeError: NoneType object has no attribute get_text") ∧
    (∀ e, findByClass b otherClass = some e → extractOther b = Except.ok e.text) ∧
    (findByClass b otherClass = none →
      extractOther b =
        Except.error "AttributeError: NoneType object has no attribute get_text") := by
  refine ⟨fun e h => ?_, fun h => ?_, fun e h => ?_, fun h => ?_, fun e h => ?_, fun h => ?_⟩ <;>
    simp [extractPos1, extractPos2, extractOther, pyGetText, h]

/-- Witness for the amended C2 at the captured first record block: the
position-2 div is present with empty text and yields the empty value. -/
theorem claim_C2_field_extraction_witness :
    findByClass abbanatBlock pos2Class =
        some (Elem.mk ["views-field", "views-field-field-position-and-title-2"] "") ∧
      extractPos2 abbanatBlock = Except.ok "" :=
  ⟨rfl, (claim_C2_field_extraction abbanatBlock).2.2.1 _ rfl⟩

/-- Claim C3: the code does not record the error text and continue — the
except-branch itself raises `TypeError` (an exception object is added to a
string), so a failing image download aborts the whole pipeline. -/
theorem claim_C3_handler_aborts :
    (∀ e, photoExceptBranch e =
      Except.error "TypeError: unsupported operand type(s) for +: Exception and str") ∧
    facultyImageRows failingDl none
        [Person.mk "Cherie Abbanat" (some "http://dusp.mit.edu/cherie.jpg")] =
      Except.error "TypeError: unsupported operand type(s) for +: Exception and str" :=
  ⟨fun _ => rfl, rfl⟩

/-- Claim C4: a record block with no img element does not get an
empty/placeholder image value — the `image_file` variable is never reset,
so the previous record's filename is carried over; and when the very first
record lacks an img the row construction raises `NameError`. -/
theorem claim_C4_image_file_carried_over :
    facultyImageRows okDl none
        [Person.mk "Cherie Abbanat" (some "http://dusp.mit.edu/cherie.jpg"),
         Person.mk "Paul Altidor" none] =
      Except.ok [("Cherie Abbanat", PyVal.str "cherie_abbanat.jpg"),
                 ("Paul Altidor", PyVal.str "cherie_abbanat.jpg")] ∧
    facultyImageRows okDl none [Person.mk "Paul Altidor" none] =
      Except.error "NameError: name image_file is not defined" :=
  ⟨rfl, rfl⟩

/-- Claim C5: the routing client is not constructed with the key stored in
the `.env` file — the notebook instructs the variable name `OSRKEY` but the
code reads `ORSKEY`, so for every stored key the client receives `None`. -/
theorem claim_C5_env_var_mismatch (key : String) :
    orsClientKey (dotenvFile key) = none ∧
      orsClientKey (dotenvFile key) ≠ some key := by
  have h : orsClientKey (dotenvFile key) = none := rfl
  exact ⟨h, by simp [h]⟩

theorem foldl_append_singleton {α β : Type} (f : α → β) (rows : List α)
    (init : List β) :
    rows.foldl (fun acc r => acc ++ [f r]) init = init ++ rows.map f := by
  induction rows generalizing init with
  | nil => simp
  | cons r rs ih => simp [List.foldl_cons, ih, List.append_assoc]

theorem countP_isHeaderWrite_map_row (rows : List (List (String × String))) :
    (rows.map CsvWrite.row).countP isHeaderWrite = 0 := by
  induction rows with
  | nil => rfl
  | cons r rs ih => simp [List.countP_cons, isHeaderWrite, ih]

/-- Claim C7: the writer emits the fixed header exactly once, before any
data row, then one data row per record in processing order; zero records
yield the header alone. -/
theorem claim_C7_header_then_rows (rows : List (List (String × String))) :
    writeFacultyCsv rows = CsvWrite.header facultyFieldNames :: rows.map CsvWrite.row ∧
      (writeFacultyCsv rows).countP isHeaderWrite = 1 ∧
      writeFacultyCsv [] = [CsvWrite.header facultyFieldNames] := by
  have h : writeFacultyCsv rows =
      CsvWrite.header facultyFieldNames :: rows.map CsvWrite.row := by
    simpa [writeFacultyCsv] using
      foldl_append_singleton CsvWrite.row rows [CsvWrite.header facultyFieldNames]
  refine ⟨h, ?_, rfl⟩
  simp [h, List.countP_cons, isHeaderWrite, countP_isHeaderWrite_map_row rows]

theorem writtenRows_append (t₁ t₂ : List IsoEvent) :
    writtenRows (t₁ ++ t₂) = writtenRows t₁ ++ writtenRows t₂ := by
  simp [writtenRows, List.filterMap_append]

theorem writtenRows_isoTraceFrom {G : Type} (iso : StationRow → Except String G)
    (toWkt : G → Except String String) :
    ∀ (i : Nat) (rows : List StationRow),
      writtenRows (isoTraceFrom iso toWkt i rows) =
        rows.filterMap (successRow iso toWkt)
  | _, [] => rfl
  | i, r :: rs => by
      rw [isoTraceFrom]
      cases hg : rowGeom iso toWkt r with
      | error e =>
          simp [writtenRows, List.filterMap_cons, List.filterMap_append, successRow, hg,
            ← writtenRows_isoTraceFrom iso toWkt (i + 1) rs]
      | ok w =>
          simp [writtenRows, List.filterMap_cons, List.filterMap_append, successRow, hg,
            ← writtenRows_isoTraceFrom iso toWkt (i + 1) rs]

theorem length_filterMap_successRow {G : Type} (iso : StationRow → Except String G)
    (toWkt : G → Except String String) (rows : List StationRow) :
    (rows.filterMap (successRow iso toWkt)).length =
      rows.length - rows.countP (rowFails iso toWkt) := by
  induction rows with
  | nil => rfl
  | cons r rs ih =>
      have hle : rs.countP (rowFails iso toWkt) ≤ rs.length := List.countP_le_length _
      cases hg : rowGeom iso toWkt r with
      | error e =>
          simp [List.filterMap_cons, successRow, hg, List.countP_cons, rowFails]
          omega
      | ok w =>
          simp [List.filterMap_cons, successRow, hg, List.countP_cons, rowFails]
          omega

theorem evIdx_ge_of_mem {G : Type} (iso : StationRow → Except String G)
    (toWkt : G → Except String String) :
    ∀ (rows : List StationRow) (i : Nat) (ev : IsoEvent),
      ev ∈ isoTraceFrom iso toWkt i rows → i ≤ evIdx ev
  | [], i, ev => by intro h; simp [isoTraceFrom] at h
  | r :: rs, i, ev => by
      intro h
      rw [isoTraceFrom] at h
      cases hg : rowGeom iso toWkt r with
      | error e =>
          rw [hg] at h
          rcases List.mem_cons.mp h with rfl | h2
          · simp [evIdx]
          · rcases List.mem_append.mp h2 with hb | ht
            · simp at hb; subst hb; simp [evIdx]
            · exact Nat.le_of_succ_le (evIdx_ge_of_mem iso toWkt rs (i + 1) ev ht)
      | ok w =>
          rw [hg] at h
          rcases List.mem_cons.mp h with rfl | h2
          · simp [evIdx]
          · rcases List.mem_append.mp h2 with hb | ht
            · simp at hb; subst hb; simp [evIdx]
            · exact Nat.le_of_succ_le (evIdx_ge_of_mem iso toWkt rs (i + 1) ev ht)

theorem isRequestIdx_evIdx (j : Nat) (ev : IsoEvent) (h : isRequestIdx j ev = true) :
    evIdx ev = j := by
  cases ev <;> simp_all [isRequestIdx, evIdx]

theorem isWriteIdx_evIdx (j : Nat) (ev : IsoEvent) (h : isWriteIdx j ev = true) :
    evIdx ev = j := by
  cases ev <;> simp_all [isWriteIdx, evIdx]

theorem isLogIdx_evIdx (j : Nat) (ev : IsoEvent) (h : isLogIdx j ev = true) :
    evIdx ev = j := by
  cases ev <;> simp_all [isLogIdx, evIdx]

theorem countP_idx_zero {G : Type} (iso : StationRow → Except String G)
    (toWkt : G → Except String String) (rows : List StationRow) (i j : Nat)
    (p : IsoEvent → Bool) (hp : ∀ ev, p ev = true → evIdx ev = j) (hj : j < i) :
    (isoTraceFrom iso toWkt i rows).countP p = 0 := by
  refine List.countP_eq_zero.mpr ?_
  intro ev hev hpe
  have h1 := evIdx_ge_of_mem iso toWkt rows i ev hev
  have h2 := hp ev hpe
  omega

theorem countP_isRequestIdx_trace {G : Type} (iso : StationRow → Except String G)
    (toWkt : G → Except String String) :
    ∀ (rows : List StationRow) (i k : Nat),
      (isoTraceFrom iso toWkt i rows).countP (isRequestIdx (i + k)) =
        match rows.get? k with
        | some _ => 1
        | none => 0
  | [], i, k => by simp [isoTraceFrom]
  | r :: rs, i, k => by
      rw [isoTraceFrom]
      cases hg : rowGeom iso toWkt r with
      | error e =>
          cases k with
          | zero =>
              have hz : (isoTraceFrom iso toWkt (i + 1) rs).countP (isRequestIdx i) = 0 :=
                countP_idx_zero iso toWkt rs (i + 1) i _ (isRequestIdx_evIdx i) (by omega)
              simp [List.countP_cons, List.countP_append, isRequestIdx, hz]
          | succ m =>
              have ih := countP_isRequestIdx_trace iso toWkt rs (i + 1) m
              rw [show i + (m + 1) = (i + 1) + m by omega]
              simp only [List.countP_cons, List.countP_append, List.get?]
              rw [ih]
              simp [isRequestIdx, show ¬ (i = i + 1 + m) by omega]
      | ok w =>
          cases k with
          | zero =>
              have hz : (isoTraceFrom iso toWkt (i + 1) rs).countP (isRequestIdx i) = 0 :=
                countP_idx_zero iso toWkt rs (i + 1) i _ (isRequestIdx_evIdx i) (by omega)
              simp [List.countP_cons, List.countP_append, isRequestIdx, hz]
          | succ m =>
              have ih := countP_isRequestIdx_trace iso toWkt rs (i + 1) m
              rw [show i + (m + 1) = (i + 1) + m by omega]
              simp only [List.countP_cons, List.countP_append, List.get?]
              rw [ih]
              simp [isRequestIdx, show ¬ (i = i + 1 + m) by omega]

theorem countP_isWriteIdx_trace {G : Type} (iso : StationRow → Except String G)
    (toWkt : G → Except String String) :
    ∀ (rows : List StationRow) (i k : Nat),
      (isoTraceFrom iso toWkt i rows).countP (isWriteIdx (i + k)) =
        match rows.get? k with
        | some r => if rowFails iso toWkt r then 0 else 1
        | none => 0
  | [], i, k => by simp [isoTraceFrom]
  | r :: rs, i, k => by
      rw [isoTraceFrom]
      cases hg : rowGeom iso toWkt r with
      | error e =>
          cases k with
          | zero =>
              have hz : (isoTraceFrom iso toWkt (i + 1) rs).countP (isWriteIdx i) = 0 :=
                countP_idx_zero iso toWkt rs (i + 1) i _ (isWriteIdx_evIdx i) (by omega)
              simp [List.countP_cons, List.countP_append, isWriteIdx, hz, rowFails, hg]
          | succ m =>
              have ih := countP_isWriteIdx_trace iso toWkt rs (i + 1) m
              rw [show i + (m + 1) = (i + 1) + m by omega]
              simp only [List.countP_cons, List.countP_append, List.get?]
              rw [ih]
              simp [isWriteIdx]
      | ok w =>
          cases k with
          | zero =>
              have hz : (isoTraceFrom iso toWkt (i + 1) rs).countP (isWriteIdx i) = 0 :=
                countP_idx_zero iso toWkt rs (i + 1) i _ (isWriteIdx_evIdx i) (by omega)
              simp [List.countP_cons, List.countP_append, isWriteIdx, hz, rowFails, hg]
          | succ m =>
              have ih := countP_isWriteIdx_trace iso toWkt rs (i + 1) m
              rw [show i + (m + 1) = (i + 1) + m by omega]
              simp only [List.countP_cons, List.countP_append, List.get?]
              rw [ih]
              simp [isWriteIdx, show ¬ (i = i + 1 + m) by omega]

theorem countP_isLogIdx_trace {G : Type} (iso : StationRow → Except String G)
    (toWkt : G → Except String String) :
    ∀ (rows : List StationRow) (i k : Nat),
      (isoTraceFrom iso toWkt i rows).countP (isLogIdx (i + k)) =
        match rows.get? k with
        | some r => if rowFails iso toWkt r then 1 else 0
        | none => 0
  | [], i, k => by simp [isoTraceFrom]
  | r :: rs, i, k => by
      rw [isoTraceFrom]
      cases hg : rowGeom iso toWkt r with
      | error e =>
          cases k with
          | zero =>
              have hz : (isoTraceFrom iso toWkt (i + 1) rs).countP (isLogIdx i) = 0 :=
                countP_idx_zero iso toWkt rs (i + 1) i _ (isLogIdx_evIdx i) (by omega)
              simp [List.countP_cons, List.countP_append, isLogIdx, hz, rowFails, hg]
          | succ m =>
              have ih := countP_isLogIdx_trace iso toWkt rs (i + 1) m
              rw [show i + (m + 1) = (i + 1) + m by omega]
              simp only [List.countP_cons, List.countP_append, List.get?]
              rw [ih]
              simp [isLogIdx, show ¬ (i = i + 1 + m) by omega]
      | ok w =>
          cases k with
          | zero =>
              have hz : (isoTraceFrom iso toWkt (i + 1) rs).countP (isLogIdx i) = 0 :=
                countP_idx_zero iso toWkt rs (i + 1) i _ (isLogIdx_evIdx i) (by omega)
              simp [List.countP_cons, List.countP_append, isLogIdx, hz, rowFails, hg]
          | succ m =>
              have ih := countP_isLogIdx_trace iso toWkt rs (i + 1) m
              rw [show i + (m + 1) = (i + 1) + m by omega]
              simp only [List.countP_cons, List.countP_append, List.get?]
              rw [ih]
              simp [isLogIdx]

/-- Claim C1: the batch isochrone loop writes exactly the successful rows,
in input order — the output row list is the input list filtered through the
per-row request/conversion result, and its length is the input row count
minus the count of rows whose request or conversion raised. -/
theorem claim_C1_output_row_count {G : Type} (iso : StationRow → Except String G)
    (toWkt : G → Except String String) (rows : List StationRow) :
    writtenRows (isoTrace iso toWkt rows) = rows.filterMap (successRow iso toWkt) ∧
      (writtenRows (isoTrace iso toWkt rows)).length =
        rows.length - rows.countP (rowFails iso toWkt) := by
  have h := writtenRows_isoTraceFrom iso toWkt 0 rows
  exact ⟨h, by rw [isoTrace, h]; exact length_filterMap_successRow iso toWkt rows⟩

/-- Claim C8: for a row whose request/conversion raises, the batch loop
issues exactly one request (no retry), logs the failure exactly once, writes
no output row for it, and still issues exactly one request for every other
row — iteration continues. -/
theorem claim_C8_failure_skipped {G : Type} (iso : StationRow → Except String G)
    (toWkt : G → Except String String) (rows : List StationRow) (i : Nat)
    (r : StationRow) (hr : rows.get? i = some r)
    (hf : rowFails iso toWkt r = true) :
    (isoTrace iso toWkt rows).countP (isRequestIdx i) = 1 ∧
      (isoTrace iso toWkt rows).countP (isLogIdx i) = 1 ∧
      (isoTrace iso toWkt rows).countP (isWriteIdx i) = 0 ∧
      ∀ j s, rows.get? j = some s → (isoTrace iso toWkt rows).countP (isRequestIdx j) = 1 := by
  have h1 := countP_isRequestIdx_trace iso toWkt rows 0 i
  have h2 := countP_isLogIdx_trace iso toWkt rows 0 i
  have h3 := countP_isWriteIdx_trace iso toWkt rows 0 i
  rw [Nat.zero_add] at h1 h2 h3
  rw [hr] at h1 h2 h3
  refine ⟨?_, ?_, ?_, ?_⟩
  · rw [isoTrace]; simpa using h1
  · rw [isoTrace, h2]; simp [hf]
  · rw [isoTrace, h3]; simp [hf]
  · intro j s hs
    have h4 := countP_isRequestIdx_trace iso toWkt rows 0 j
    rw [Nat.zero_add, hs] at h4
    rw [isoTrace]
    simpa using h4

/-- Witness for C8: in the two-station sample, the rate-limited second
station is requested once, logged once, never written, and both stations
are requested exactly once. -/
theorem claim_C8_failure_skipped_witness :
    sampleRows.get? 1 = some (StationRow.mk "Kendall/MIT" "-71.0865" "42.3625") ∧
      rowFails sampleIso sampleWkt (StationRow.mk "Kendall/MIT" "-71.0865" "42.3625") = true ∧
      ((isoTrace sampleIso sampleWkt sampleRows).countP (isRequestIdx 1) = 1 ∧
        (isoTrace sampleIso sampleWkt sampleRows).countP (isLogIdx 1) = 1 ∧
        (isoTrace sampleIso sampleWkt sampleRows).countP (isWriteIdx 1) = 0 ∧
        ∀ j s, sampleRows.get? j = some s →
          (isoTrace sampleIso sampleWkt sampleRows).countP (isRequestIdx j) = 1) :=
  ⟨rfl, rfl,
    claim_C8_failure_skipped sampleIso sampleWkt sampleRows 1
      (StationRow.mk "Kendall/MIT" "-71.0865" "42.3625") rfl rfl⟩

/-- Claim C10: a data row reaches the output only when both the remote
request and the WKT conversion for it succeeded, its input row is one of
the input rows, and — as long as the conversion never yields an empty WKT
string — its geom field is populated and non-empty. -/
theorem claim_C10_geom_populated {G : Type} (iso : StationRow → Except String G)
    (toWkt : G → Except String String) (rows : List StationRow)
    (hW : ∀ g w, toWkt g = Except.ok w → w ≠ "")
    (o : IsoRow) (ho : o ∈ writtenRows (isoTrace iso toWkt rows)) :
    o.row ∈ rows ∧ (∃ g, iso o.row = Except.ok g ∧ toWkt g = Except.ok o.geom) ∧
      o.geom ≠ "" := by
  rw [isoTrace, writtenRows_isoTraceFrom iso toWkt 0 rows] at ho
  rcases List.mem_filterMap.mp ho with ⟨r, hr, hs⟩
  cases hg : rowGeom iso toWkt r with
  | error e => simp [successRow, hg] at hs
  | ok w =>
      have hsr : successRow iso toWkt r = some (IsoRow.mk r w) := by
        simp [successRow, hg]
      rw [hsr] at hs
      have ho2 : IsoRow.mk r w = o := Option.some.inj hs
      subst ho2
      have hex : ∃ g, iso r = Except.ok g ∧ toWkt g = Except.ok w := by
        cases hi : iso r with
        | error e2 => simp [rowGeom, hi] at hg
        | ok g =>
            refine ⟨g, rfl, ?_⟩
            simpa [rowGeom, hi] using hg
      rcases hex with ⟨g, hig, hwg⟩
      exact ⟨hr, ⟨g, hig, hwg⟩, hW g w hwg⟩

/-- Witness for C10: the single row written in the two-station sample is
the Harvard row, with its polygon WKT in the geom field. -/
theorem claim_C10_geom_populated_witness :
    (∀ g w, sampleWkt g = Except.ok w → w ≠ "") ∧
      IsoRow.mk (StationRow.mk "Harvard" "-71.1190" "42.3736")
          "POLYGON ((0 0, 1 1, 1 0, 0 0))" ∈
        writtenRows (isoTrace sampleIso sampleWkt sampleRows) ∧
      (StationRow.mk "Harvard" "-71.1190" "42.3736" ∈ sampleRows ∧
        (∃ g, sampleIso (StationRow.mk "Harvard" "-71.1190" "42.3736") = Except.ok g ∧
          sampleWkt g = Except.ok "POLYGON ((0 0, 1 1, 1 0, 0 0))") ∧
        "POLYGON ((0 0, 1 1, 1 0, 0 0))" ≠ "") := by
  have hW : ∀ g w, sampleWkt g = Except.ok w → w ≠ "" := by
    intro g w h
    rw [sampleWkt] at h
    have := Except.ok.inj h
    rw [← this]
    decide
  have hmem : IsoRow.mk (StationRow.mk "Harvard" "-71.1190" "42.3736")
      "POLYGON ((0 0, 1 1, 1 0, 0 0))" ∈
      writtenRows (isoTrace sampleIso sampleWkt sampleRows) := by decide
  exact ⟨hW, hmem,
    claim_C10_geom_populated sampleIso sampleWkt sampleRows hW _ hmem⟩

theorem takeWhile_digits_prefix :
    ∀ (ds rest : List Char), ds.all Char.isDigit = true → headIsNotDigit rest = true →
      (ds ++ rest).takeWhile Char.isDigit = ds ∧ (ds ++ rest).dropWhile Char.isDigit = rest
  | [], rest => by
      intro _ hr
      cases rest with
      | nil => exact ⟨rfl, rfl⟩
      | cons c t =>
          simp only [headIsNotDigit, Bool.not_eq_true'] at hr
          constructor <;> simp [List.takeWhile_cons, List.dropWhile_cons, hr]
  | d :: ds, rest => by
      intro hd hr
      simp only [List.all_cons, Bool.and_eq_true] at hd
      have ih := takeWhile_digits_prefix ds rest hd.2 hr
      constructor <;>
        simp [List.takeWhile_cons, List.dropWhile_cons, hd.1, ih.1, ih.2]

theorem parseSign_cons_of_ne (c : Char) (t : List Char) (h : c ≠ '-') :
    parseSign (c :: t) = (false, c :: t) := by
  simp only [parseSign]
  split
  next t2 heq => exact absurd (List.cons.inj heq).1 h
  next => rfl

theorem parseNum_roundtrip (n : JNum) (hn : wfNum n = true) (rest : List Char)
    (hr : headIsNotDigit rest = true) :
    parseNum (serNum n ++ rest) = some (n, rest) := by
  obtain ⟨neg, ip, fp⟩ := n
  simp only [wfNum, Bool.and_eq_true] at hn
  obtain ⟨⟨⟨h1, h2⟩, h3⟩, h4⟩ := hn
  have h1f : ip.isEmpty = false := by revert h1; cases ip.isEmpty <;> simp
  have h2f : fp.isEmpty = false := by revert h2; cases fp.isEmpty <;> simp
  have ht1 := takeWhile_digits_prefix ip ('.' :: (fp ++ rest)) h3 rfl
  have ht2 := takeWhile_digits_prefix fp rest h4 hr
  cases neg with
  | true =>
      have hs : serNum (JNum.mk true ip fp) ++ rest = '-' :: (ip ++ ('.' :: (fp ++ rest))) := by
        simp [serNum]
      rw [hs]
      simp only [parseNum, parseSign]
      rw [ht1.1, ht1.2, h1f]
      simp only [Bool.false_eq_true, if_false]
      rw [ht2.1, ht2.2, h2f]
      simp
  | false =>
      obtain ⟨d, ds, hip⟩ : ∃ d ds, ip = d :: ds := by
        cases ip with
        | nil => simp at h1f
        | cons d ds => exact ⟨d, ds, rfl⟩
      have hdd : d.isDigit = true := by
        rw [hip] at h3
        simp only [List.all_cons, Bool.and_eq_true] at h3
        exact h3.1
      have hs : serNum (JNum.mk false ip fp) ++ rest = d :: (ds ++ ('.' :: (fp ++ rest))) := by
        simp [serNum, hip]
      have hdm : d ≠ '-' := by
        intro hcon
        rw [hcon] at hdd
        exact absurd hdd (by decide)
      have hsign := parseSign_cons_of_ne d (ds ++ ('.' :: (fp ++ rest))) hdm
      rw [hs]
      simp only [parseNum, hsign]
      have hip2 : d :: (ds ++ ('.' :: (fp ++ rest))) = ip ++ ('.' :: (fp ++ rest)) := by
        simp [hip]
      rw [hip2, ht1.1, ht1.2, h1f]
      simp only [Bool.false_eq_true, if_false]
      rw [ht2.1, ht2.2, h2f]
      simp

theorem parsePair_roundtrip (c : JNum × JNum) (hx : wfNum c.fst = true)
    (hy : wfNum c.snd = true) (rest : List Char) :
    parsePair (serPair c ++ rest) = some (c, rest) := by
  obtain ⟨x, y⟩ := c
  have e1 : serPair (x, y) ++ rest =
      '[' :: (serNum x ++ (',' :: (serNum y ++ (']' :: rest)))) := by
    simp [serPair, serPairTail]
  rw [e1]
  simp only [parsePair]
  rw [parseNum_roundtrip x hx (',' :: (serNum y ++ (']' :: rest))) rfl]
  simp [parseNum_roundtrip y hy (']' :: rest) rfl]

theorem parseCoordsTail_roundtrip :
    ∀ (cs : List (JNum × JNum)) (fuel : Nat), cs.length ≤ fuel →
      (∀ c ∈ cs, wfNum c.fst = true ∧ wfNum c.snd = true) →
      ∀ rest : List Char,
        parseCoordsTail fuel (serCoordsTail cs ++ rest) = some (cs, rest)
  | [], fuel => by
      intro _ _ rest
      simp [serCoordsTail, parseCoordsTail]
  | c :: cs, fuel => by
      intro hf hw rest
      cases fuel with
      | zero => simp at hf
      | succ f =>
          have e1 : serCoordsTail (c :: cs) ++ rest =
              ',' :: (serPair c ++ (serCoordsTail cs ++ rest)) := by
            simp [serCoordsTail]
          rw [e1]
          have hc := hw c (by simp)
          have hp := parsePair_roundtrip c hc.1 hc.2 (serCoordsTail cs ++ rest)
          have ih := parseCoordsTail_roundtrip cs f (by simpa using hf)
            (fun c2 hc2 => hw c2 (by simp [hc2])) rest
          simp [parseCoordsTail, hp, ih]

theorem parseCoords_roundtrip (l : List (JNum × JNum)) (fuel : Nat)
    (hf : l.length ≤ fuel)
    (hw : ∀ c ∈ l, wfNum c.fst = true ∧ wfNum c.snd = true) (rest : List Char) :
    parseCoords fuel (serCoords l ++ rest) = some (l, rest) := by
  cases l with
  | nil => simp [serCoords, parseCoords]
  | cons c cs =>
      have e1 : serCoords (c :: cs) ++ rest =
          '[' :: ('[' :: (serPairTail c ++ (serCoordsTail cs ++ rest))) := by
        simp [serCoords, serPair]
      rw [e1]
      have hc := hw c (by simp)
      have hp : parsePair ('[' :: (serPairTail c ++ (serCoordsTail cs ++ rest))) =
          some (c, serCoordsTail cs ++ rest) :=
        parsePair_roundtrip c hc.1 hc.2 (serCoordsTail cs ++ rest)
      have ih := parseCoordsTail_roundtrip cs fuel
        (by simp at hf; omega) (fun c2 hc2 => hw c2 (by simp [hc2])) rest
      simp [parseCoords, hp, ih]

theorem length_le_length_serCoordsTail :
    ∀ cs : List (JNum × JNum), cs.length ≤ (serCoordsTail cs).length
  | [] => by simp [serCoordsTail]
  | c :: cs => by
      have ih := length_le_length_serCoordsTail cs
      simp [serCoordsTail]
      omega

theorem length_le_length_serCoords (l : List (JNum × JNum)) :
    l.length ≤ (serCoords l).length := by
  cases l with
  | nil => simp [serCoords]
  | cons c cs =>
      have h := length_le_length_serCoordsTail cs
      simp [serCoords]
      omega

/-- Claim C9: serializing a geometry's coordinate list to GeoJSON text and
reparsing it yields back exactly the coordinate sequence that was received,
for every well-formed coordinate list. -/
theorem claim_C9_json_roundtrip (l : List (JNum × JNum))
    (hw : ∀ c ∈ l, wfNum c.fst = true ∧ wfNum c.snd = true) :
    jsonLoadCoords (jsonDumpCoords l) = some (l, []) := by
  have hf : l.length ≤ (serCoords l).length := length_le_length_serCoords l
  have h := parseCoords_roundtrip l (serCoords l).length hf hw []
  rw [jsonLoadCoords, jsonDumpCoords]
  simpa using h

/-- Witness for C9 at the first two captured route coordinates. -/
theorem claim_C9_json_roundtrip_witness :
    (∀ c ∈ routeCoords, wfNum c.fst = true ∧ wfNum c.snd = true) ∧
      jsonLoadCoords (jsonDumpCoords routeCoords) = some (routeCoords, []) :=
  ⟨by decide, claim_C9_json_roundtrip routeCoords (by decide)⟩

end SpatialDataScience
